import Mathlib

/-!
Formal model of `add_data_to_tables.py`, a script that loads three CSV files
into Postgres tables.  The script reads each CSV with
`pd.read_csv(path, dtype=str)`, so every cell is either a string or the NaN
missing marker; it coerces fields with four helpers (`to_int`, `to_text`,
`to_numeric`, `to_date`), maps each record to a fixed-order tuple, batches the
tuples with `chunk_iter`, bulk-inserts each batch and commits, and a `main`
driver checks file existence, opens one connection, runs the three loaders and
catches every exception at top level.

The definitions below are a shallow embedding of that code: pandas cell
values become `PyVal`, Python string helpers become functions on `List Char`,
Python's `int`/`Decimal`/`pd.to_datetime` parsers become `Option`-returning
functions (a `none` models the exception, or `NaT` for the coerced date
parse), a loaded dataframe becomes a `DataFrame`, and the observable effects
of a loader / of `main` become explicit result records.
-/

/-- A pandas cell as produced by `pd.read_csv(..., dtype=str)`: either the
NaN missing marker (`pd.isna` is true exactly here) or a string. -/
inductive PyVal where
  | na : PyVal
  | s : String → PyVal
deriving DecidableEq

/-- The whitespace set of Python's `str.strip()` (ASCII part): space, tab,
newline, carriage return, vertical tab, form feed. -/
def isPySpace (c : Char) : Bool :=
  c = ' ' || c = '\t' || c = '\n' || c = '\r' || c = '\x0b' || c = '\x0c'

/-- Python `str.strip()` with no argument: remove leading and trailing
whitespace characters. -/
def pyStrip (s : String) : String :=
  ⟨((s.data.dropWhile isPySpace).reverse.dropWhile isPySpace).reverse⟩

/-- Python `str.replace(",", "")`: remove every comma, at any position. -/
def removeCommas (s : String) : String :=
  ⟨s.data.filter (fun c => c != ',')⟩

/-- Numeric value of a decimal digit character. -/
def digitVal (c : Char) : Nat := c.toNat - 48

/-- Parse a nonempty all-digit character list as a natural number. -/
def parseDigits (cs : List Char) : Option Nat :=
  if !cs.isEmpty && cs.all Char.isDigit then
    some (cs.foldl (fun a c => 10 * a + digitVal c) 0)
  else none

/-- Model of Python `int(s)` on strings: optional surrounding whitespace, an
optional sign, then one or more decimal digits.  (Underscore digit grouping
and non-ASCII digits, which CPython also accepts, are not modelled.)  A
`none` models the `ValueError` the real `int` raises. -/
def pyParseInt (s : String) : Option Int :=
  match (pyStrip s).data with
  | '+' :: cs => (parseDigits cs).map (fun n => (n : Int))
  | '-' :: cs => (parseDigits cs).map (fun n => -(n : Int))
  | cs => (parseDigits cs).map (fun n => (n : Int))

/-- An exact decimal value, as Python's `decimal.Decimal`: an integer
mantissa `num` scaled by `10 ^ exp`.  `Decimal` is an exact decimal type
(no binary floating point), so the mantissa/scale pair loses nothing. -/
structure PyDecimal where
  num : Int
  exp : Nat
deriving DecidableEq

/-- The exact rational value denoted by a `PyDecimal`. -/
def decValue (d : PyDecimal) : ℚ := (d.num : ℚ) / 10 ^ d.exp

/-- Unsigned core of the `Decimal` string grammar: `digits [ "." digits ]`
or `"." digits` (at least one digit overall); returns mantissa and scale. -/
def parseDecCore (cs : List Char) : Option (Nat × Nat) :=
  match cs.dropWhile Char.isDigit with
  | [] => (parseDigits cs).map (fun n => (n, 0))
  | '.' :: frac =>
      if (!(cs.takeWhile Char.isDigit).isEmpty || !frac.isEmpty)
          && frac.all Char.isDigit then
        some ((((cs.takeWhile Char.isDigit) ++ frac).foldl
                 (fun a c => 10 * a + digitVal c) 0),
              frac.length)
      else none
  | _ => none

/-- Model of `decimal.Decimal(s)` on strings: optional surrounding
whitespace, an optional sign, then a plain decimal numeral.  (Exponent
forms, `NaN`/`Infinity` literals and underscore grouping, which `Decimal`
also accepts, are not modelled.)  A `none` models `InvalidOperation`. -/
def pyParseDecimal (s : String) : Option PyDecimal :=
  match (pyStrip s).data with
  | '+' :: cs => (parseDecCore cs).map (fun p => ⟨(p.1 : Int), p.2⟩)
  | '-' :: cs => (parseDecCore cs).map (fun p => ⟨-(p.1 : Int), p.2⟩)
  | cs => (parseDecCore cs).map (fun p => ⟨(p.1 : Int), p.2⟩)

/-- A calendar date, as returned by `Timestamp.date()`. -/
structure PyDate where
  year : Nat
  month : Nat
  day : Nat
deriving DecidableEq

/-- Gregorian leap-year rule. -/
def isLeapYear (y : Nat) : Bool :=
  (y % 4 == 0 && y % 100 != 0) || y % 400 == 0

/-- Number of days in a month. -/
def daysInMonth (y m : Nat) : Nat :=
  if m = 2 then (if isLeapYear y then 29 else 28)
  else if m = 4 ∨ m = 6 ∨ m = 9 ∨ m = 11 then 30
  else 31

/-- A calendar-valid date, or `none` for an invalid month/day combination. -/
def mkDate (y m d : Nat) : Option PyDate :=
  if 1 ≤ m ∧ m ≤ 12 ∧ 1 ≤ d ∧ d ≤ daysInMonth y m then some ⟨y, m, d⟩
  else none

/-- Model of `pd.to_datetime(s, infer_datetime_format=True, errors="coerce")`
followed by `.date()`, restricted to the ISO `YYYY-MM-DD` format (pandas
accepts further formats that are not modelled; surrounding whitespace is
tolerated).  With `errors="coerce"` a failed parse yields `NaT` — modelled
as `none` — never an exception. -/
def pdToDatetime (s : String) : Option PyDate :=
  match (pyStrip s).data with
  | [y1, y2, y3, y4, '-', m1, m2, '-', d1, d2] =>
      if [y1, y2, y3, y4, m1, m2, d1, d2].all Char.isDigit then
        mkDate (digitVal y1 * 1000 + digitVal y2 * 100 + digitVal y3 * 10
                  + digitVal y4)
               (digitVal m1 * 10 + digitVal m2)
               (digitVal d1 * 10 + digitVal d2)
      else none
  | _ => none

/-- `to_int` from the source: `None` for NaN or blank, otherwise
`int(str(val).strip())` with any exception swallowed to `None`.  Since the
dataframe is read with `dtype=str`, `pd.isna(val)` is true exactly on the
`na` marker and `str(val)` is the identity on the string branch. -/
def to_int (v : PyVal) : Option Int :=
  match v with
  | .na => none
  | .s s => if pyStrip s = "" then none else pyParseInt (pyStrip s)

/-- `to_text` from the source: `""` for NaN, otherwise the stripped string.
Its return type is `String`: it can never produce the absent marker. -/
def to_text (v : PyVal) : String :=
  match v with
  | .na => ""
  | .s s => pyStrip s

/-- `to_numeric` from the source: `None` for NaN or blank, otherwise
`Decimal(str(val).replace(",", "").strip())` with any exception swallowed
to `None`. -/
def to_numeric (v : PyVal) : Option PyDecimal :=
  match v with
  | .na => none
  | .s s =>
      if pyStrip s = "" then none
      else pyParseDecimal (pyStrip (removeCommas s))

/-- `to_date` from the source: `None` for NaN or blank, otherwise
`pd.to_datetime(val, ..., errors="coerce")` (which yields `NaT`, i.e.
`none`, on failure rather than raising) converted to a date, with any
exception swallowed to `None`. -/
def to_date (v : PyVal) : Option PyDate :=
  match v with
  | .na => none
  | .s s => if pyStrip s = "" then none else pdToDatetime s

/-- `chunk_iter` from the source:
`for i in range(0, len(seq), size): yield seq[i : i + size]`.
For `size > 0`, `range(0, L, size)` enumerates the `⌈L / size⌉` start
offsets `0, size, 2·size, …`, and the slice `seq[i : i + size]` is
`(seq.drop i).take size`.  (Python's `range` raises `ValueError` when
`size = 0`; the loaders only ever pass the positive batch size, and that
error case is modelled as yielding no chunks.) -/
def chunk_iter {α : Type} (seq : List α) (size : Nat) : List (List α) :=
  if size = 0 then []
  else (List.range ((seq.length + size - 1) / size)).map
    (fun k => (seq.drop (k * size)).take size)

/-- An in-memory dataframe as produced by `pd.read_csv(path, dtype=str)`:
the header (`df.columns`) and the records in file order (`df.iterrows()`),
each record giving a cell per column name (`r["col"]`). -/
structure DataFrame where
  columns : List String
  rows : List (String → PyVal)

/-- `[c for c in required if c not in df.columns]`: the required column
names missing from the header, in `required` order. -/
def requiredMissing (required columns : List String) : List String :=
  required.filter (fun c => !(columns.contains c))

/-- Comma-separated rendering of a column list, as inside the Python list
display interpolated into the error message (quote characters around the
individual names are not modelled). -/
def joinCols : List String → String
  | [] => ""
  | [c] => c
  | c :: cs => c ++ ", " ++ joinCols cs

/-- The Python list display `[a, b, ...]` interpolated into the error
message of a loader. -/
def colsMsg (l : List String) : String := "[" ++ joinCols l ++ "]"

/-- `nee` occurs contiguously inside `hay`. -/
def containsStr (hay nee : String) : Prop :=
  ∃ l r, hay.data = l ++ nee.data ++ r

/-- The observable outcome of one successful table load: the prepared row
tuples in order, the batches handed to `execute_values` in order, and
whether the per-table `conn.commit()` ran. -/
structure LoadTrace (α : Type) where
  rowTuples : List α
  batches : List (List α)
  committed : Bool
deriving DecidableEq

/-- Row tuple of the `gdpr_text` loader, in destination column order
`chapter, chapter_title, article, article_title, sub_article, gdpr_text,
href`. -/
abbrev GdprTextRow :=
  Option Int × String × Option Int × String × String × String × String

/-- The required header of `gdpr_text.csv`. -/
def gdpr_text_required : List String :=
  ["chapter", "chapter_title", "article", "article_title", "sub_article",
   "gdpr_text", "href"]

/-- The per-record tuple built in the `gdpr_text` loader's row loop. -/
def gdpr_text_row (r : String → PyVal) : GdprTextRow :=
  (to_int (r "chapter"), to_text (r "chapter_title"), to_int (r "article"),
   to_text (r "article_title"), to_text (r "sub_article"),
   to_text (r "gdpr_text"), to_text (r "href"))

/-- `load_gdpr_text` from the source: validate the header (raising
`ValueError` — the `.error` branch — before any row is mapped and before
any insert), then map every record in order, batch with `chunk_iter`,
issue one `execute_values` per batch and commit. -/
def load_gdpr_text (batchSize : Nat) (df : DataFrame) :
    Except String (LoadTrace GdprTextRow) :=
  if requiredMissing gdpr_text_required df.columns = [] then
    .ok ⟨df.rows.map gdpr_text_row,
         chunk_iter (df.rows.map gdpr_text_row) batchSize, true⟩
  else
    .error ("gdpr_text: missing columns in CSV: "
              ++ colsMsg (requiredMissing gdpr_text_required df.columns))

/-- Row tuple of the `gdpr_violations_derived` loader, in destination
column order `id, picture_path, country_name, fine_price, authority, date,
controller, article_violated, type, source, summary, article_no_der,
sub_article_no_der`. -/
abbrev GdprViolRow :=
  Option Int × String × String × Option PyDecimal × String × Option PyDate
    × String × String × String × String × String × Option Int × String

/-- The required header of the violations CSV. -/
def gdpr_violations_required : List String :=
  ["id", "picture", "name", "price", "authority", "date", "controller",
   "article_violated", "type", "source", "summary", "Article_no_der",
   "Sub_article_no_der"]

/-- The per-record tuple built in the violations loader's row loop. -/
def gdpr_viol_row (r : String → PyVal) : GdprViolRow :=
  (to_int (r "id"), to_text (r "picture"), to_text (r "name"),
   to_numeric (r "price"), to_text (r "authority"), to_date (r "date"),
   to_text (r "controller"), to_text (r "article_violated"),
   to_text (r "type"), to_text (r "source"), to_text (r "summary"),
   to_int (r "Article_no_der"), to_text (r "Sub_article_no_der"))

/-- `load_gdpr_violations_derived` from the source, same shape as
`load_gdpr_text`. -/
def load_gdpr_violations_derived (batchSize : Nat) (df : DataFrame) :
    Except String (LoadTrace GdprViolRow) :=
  if requiredMissing gdpr_violations_required df.columns = [] then
    .ok ⟨df.rows.map gdpr_viol_row,
         chunk_iter (df.rows.map gdpr_viol_row) batchSize, true⟩
  else
    .error ("gdpr_violations_derived: missing columns in CSV: "
              ++ colsMsg (requiredMissing gdpr_violations_required df.columns))

/-- Row tuple of the `GDPR_dataset` loader, in destination column order
`Content, Article_Number, Article_Name, Chapter_Number, Chapter_Name,
Article_Word_Count, Question, Answer, Question_Word_Count,
Answer_Word_Count`. -/
abbrev GdprDatasetRow :=
  String × Option Int × String × Option Int × String × Option Int × String
    × String × Option Int × Option Int

/-- The required header of `GDPRdataset.csv` (names contain spaces). -/
def gdpr_dataset_required : List String :=
  ["Content", "Article Number", "Article Name", "Chapter Number",
   "Chapter Name", "Article Word Count", "Question", "Answer",
   "Question Word Count", "Answer Word Count"]

/-- The per-record tuple built in the `GDPR_dataset` loader's row loop. -/
def gdpr_dataset_row (r : String → PyVal) : GdprDatasetRow :=
  (to_text (r "Content"), to_int (r "Article Number"),
   to_text (r "Article Name"), to_int (r "Chapter Number"),
   to_text (r "Chapter Name"), to_int (r "Article Word Count"),
   to_text (r "Question"), to_text (r "Answer"),
   to_int (r "Question Word Count"), to_int (r "Answer Word Count"))

/-- `load_gdpr_dataset` from the source, same shape as `load_gdpr_text`. -/
def load_gdpr_dataset (batchSize : Nat) (df : DataFrame) :
    Except String (LoadTrace GdprDatasetRow) :=
  if requiredMissing gdpr_dataset_required df.columns = [] then
    .ok ⟨df.rows.map gdpr_dataset_row,
         chunk_iter (df.rows.map gdpr_dataset_row) batchSize, true⟩
  else
    .error ("GDPR_dataset: missing columns in CSV: "
              ++ colsMsg (requiredMissing gdpr_dataset_required df.columns))

/-- The environment `main` runs against: which paths exist on disk, the
three configured CSV paths, and the outcomes of the two effectful phases
inside the `try` block — the `psycopg2.connect` call and the sequence of
three table loads (an `.error` is the first exception raised, if any). -/
structure RunEnv where
  pathExists : String → Bool
  csvPaths : List String
  connectResult : Except String Unit
  loadResult : Except String Unit

/-- The observable outcome of one `main` run: the process exit status,
whether a connection was opened, whether `conn.rollback()` ran, whether
`conn.close()` ran, and the error message printed by the `except` block
(if any). -/
structure MainTrace where
  exitCode : Nat
  connectionOpened : Bool
  rolledBack : Bool
  connectionClosed : Bool
  loggedError : Option String
deriving DecidableEq

/-- `main` from the source (named `main_run` here since Lean reserves `main` for executables).  It first checks that every configured CSV path
exists, calling `sys.exit(1)` on the first missing one — before any
database work.  Then, inside `try/except/finally`: connect, run the three
loaders, and catch any exception, printing it and calling
`conn.rollback()` only when `conn` is not `None` (i.e. only when the
connect call itself succeeded); the `finally` block closes the connection
when one exists.  A caught exception does not change the exit status: the
function returns normally and the process exits 0. -/
def main_run (env : RunEnv) : MainTrace :=
  if !(env.csvPaths.all env.pathExists) then
    ⟨1, false, false, false, none⟩
  else
    match env.connectResult with
    | .error e => ⟨0, false, false, false, some e⟩
    | .ok _ =>
        match env.loadResult with
        | .error e => ⟨0, true, true, true, some e⟩
        | .ok _ => ⟨0, true, false, true, none⟩

lemma chunk_iter_nil {α : Type} (size : Nat) :
    chunk_iter ([] : List α) size = [] := by
  unfold chunk_iter
  by_cases h : size = 0
  · simp [h]
  · have h0 : (size - 1) / size = 0 := Nat.div_eq_of_lt (by omega)
    simp [h, h0]

lemma chunk_iter_cons {α : Type} (seq : List α) (size : Nat) (hsz : size ≠ 0)
    (hne : seq ≠ []) :
    chunk_iter seq size = seq.take size :: chunk_iter (seq.drop size) size := by
  have hL : 1 ≤ seq.length := List.length_pos.mpr hne
  have hpos : 0 < size := Nat.pos_of_ne_zero hsz
  have hcount : (seq.length + size - 1) / size
      = ((seq.drop size).length + size - 1) / size + 1 := by
    rw [List.length_drop]
    have e2 : seq.length + size - 1 = (seq.length - 1) + size := by omega
    rcases Nat.lt_or_ge (seq.length - 1) size with h | h
    · have e1 : seq.length - size = 0 := by omega
      have e3 : (seq.length - 1) / size = 0 := Nat.div_eq_of_lt h
      have e4 : (0 + size - 1) / size = 0 := by
        rw [Nat.zero_add]; exact Nat.div_eq_of_lt (by omega)
      rw [e1, e2, Nat.add_div_right _ hpos, e3, e4]
    · have e5 : seq.length - size + size - 1
          = (seq.length - 1 - size) + size := by omega
      have e6 : seq.length - 1 = (seq.length - 1 - size) + size := by omega
      rw [e2, e5, Nat.add_div_right _ hpos, Nat.add_div_right _ hpos]
      nth_rewrite 1 [e6]
      rw [Nat.add_div_right _ hpos]
  unfold chunk_iter
  rw [if_neg hsz, if_neg hsz, hcount, List.range_succ_eq_map, List.map_cons,
      List.map_map]
  congr 1
  · simp
  · have hfun : ((fun k => (seq.drop (k * size)).take size) ∘ Nat.succ)
        = fun k => (((seq.drop size).drop (k * size)).take size) := by
      funext k
      show (seq.drop (Nat.succ k * size)).take size
          = ((seq.drop size).drop (k * size)).take size
      rw [List.drop_drop, Nat.succ_mul, Nat.add_comm (k * size) size]
    rw [hfun]

lemma chunk_iter_flatten_fuel {α : Type} (size : Nat) (hsz : size ≠ 0) :
    ∀ (fuel : Nat) (seq : List α), seq.length ≤ fuel →
      (chunk_iter seq size).flatten = seq := by
  intro fuel
  induction fuel with
  | zero =>
      intro seq h
      have hnil : seq = [] := List.eq_nil_of_length_eq_zero (Nat.le_zero.mp h)
      subst hnil
      rw [chunk_iter_nil]
      rfl
  | succ f ih =>
      intro seq h
      by_cases hne : seq = []
      · subst hne; rw [chunk_iter_nil]; rfl
      · have hrec : (chunk_iter (seq.drop size) size).flatten
            = seq.drop size := by
          refine ih (seq.drop size) ?_
          rw [List.length_drop]
          have := List.length_pos.mpr hne
          omega
        rw [chunk_iter_cons seq size hsz hne, List.flatten_cons, hrec]
        exact List.take_append_drop size seq

lemma chunk_iter_dropLast_fuel {α : Type} (size : Nat) (hsz : size ≠ 0) :
    ∀ (fuel : Nat) (seq : List α), seq.length ≤ fuel →
      ∀ c ∈ (chunk_iter seq size).dropLast, c.length = size := by
  intro fuel
  induction fuel with
  | zero =>
      intro seq h c hc
      have hnil : seq = [] := List.eq_nil_of_length_eq_zero (Nat.le_zero.mp h)
      subst hnil
      rw [chunk_iter_nil] at hc
      simp at hc
  | succ f ih =>
      intro seq h c hc
      by_cases hne : seq = []
      · subst hne; rw [chunk_iter_nil] at hc; simp at hc
      · rw [chunk_iter_cons seq size hsz hne] at hc
        by_cases hd : seq.drop size = []
        · rw [hd, chunk_iter_nil] at hc
          simp at hc
        · have hrest : chunk_iter (seq.drop size) size ≠ [] := by
            rw [chunk_iter_cons _ size hsz hd]
            simp
          rw [List.dropLast_cons_of_ne_nil hrest] at hc
          rcases List.mem_cons.mp hc with rfl | hc2
          · have hlen : size < seq.length := by
              by_contra hle
              push_neg at hle
              exact hd (List.drop_eq_nil_of_le hle)
            rw [List.length_take]
            omega
          · refine ih (seq.drop size) ?_ c hc2
            rw [List.length_drop]
            have := List.length_pos.mpr hne
            omega

lemma chunk_iter_bounds_fuel {α : Type} (size : Nat) (hsz : size ≠ 0) :
    ∀ (fuel : Nat) (seq : List α), seq.length ≤ fuel →
      ∀ c ∈ chunk_iter seq size, 0 < c.length ∧ c.length ≤ size := by
  intro fuel
  induction fuel with
  | zero =>
      intro seq h c hc
      have hnil : seq = [] := List.eq_nil_of_length_eq_zero (Nat.le_zero.mp h)
      subst hnil
      rw [chunk_iter_nil] at hc
      simp at hc
  | succ f ih =>
      intro seq h c hc
      by_cases hne : seq = []
      · subst hne; rw [chunk_iter_nil] at hc; simp at hc
      · rw [chunk_iter_cons seq size hsz hne] at hc
        rcases List.mem_cons.mp hc with rfl | hc2
        · have hL := List.length_pos.mpr hne
          rw [List.length_take]
          constructor <;> omega
        · refine ih (seq.drop size) ?_ c hc2
          rw [List.length_drop]
          have := List.length_pos.mpr hne
          omega

lemma chunk_iter_length {α : Type} (seq : List α) (size : Nat)
    (hsz : size ≠ 0) :
    (chunk_iter seq size).length = (seq.length + size - 1) / size := by
  unfold chunk_iter
  rw [if_neg hsz, List.length_map, List.length_range]

/-- C3: for every finite sequence of length L and chunk size n ≥ 1,
`chunk_iter` yields exactly ⌈L/n⌉ chunks; their concatenation in yield
order equals the original sequence (so chunks are contiguous,
non-overlapping and in order); every chunk except possibly the last has
length exactly n; and every chunk is nonempty of length at most n, the
last thus holding the remainder. -/
theorem claim_C3 {α : Type} (seq : List α) (n : Nat) (hn : 1 ≤ n) :
    (chunk_iter seq n).length = (seq.length + n - 1) / n ∧
    (chunk_iter seq n).flatten = seq ∧
    (∀ c ∈ (chunk_iter seq n).dropLast, c.length = n) ∧
    (∀ c ∈ chunk_iter seq n, 0 < c.length ∧ c.length ≤ n) := by
  have hsz : n ≠ 0 := by omega
  exact ⟨chunk_iter_length seq n hsz,
         chunk_iter_flatten_fuel n hsz seq.length seq (le_refl _),
         chunk_iter_dropLast_fuel n hsz seq.length seq (le_refl _),
         chunk_iter_bounds_fuel n hsz seq.length seq (le_refl _)⟩

/-- Concrete instance of C3: a five-element sequence chunked with size 2
gives ⌈5/2⌉ = 3 chunks `[10,20] [30,40] [50]`. -/
theorem claim_C3_witness :
    (chunk_iter [10, 20, 30, 40, 50] 2).length = (5 + 2 - 1) / 2 ∧
    (chunk_iter [10, 20, 30, 40, 50] 2).flatten = [10, 20, 30, 40, 50] ∧
    (∀ c ∈ (chunk_iter [10, 20, 30, 40, 50] 2).dropLast, c.length = 2) ∧
    (∀ c ∈ chunk_iter [10, 20, 30, 40, 50] 2,
        0 < c.length ∧ c.length ≤ 2) := by
  have h := claim_C3 [10, 20, 30, 40, 50] 2 (by decide)
  simpa using h

lemma pyStrip_eq_empty_iff (s : String) :
    pyStrip s = "" ↔ ∀ c ∈ s.data, isPySpace c := by
  have hmk : pyStrip s = "" ↔
      ((s.data.dropWhile isPySpace).reverse.dropWhile isPySpace).reverse
        = [] := by
    constructor
    · intro h
      exact congrArg String.data h
    · intro h
      unfold pyStrip
      rw [h]
  rw [hmk, List.reverse_eq_nil_iff, List.dropWhile_eq_nil_iff]
  constructor
  · intro h c hc
    by_cases htw : c ∈ s.data.takeWhile isPySpace
    · exact List.mem_takeWhile_imp htw
    · have hdw : c ∈ s.data.dropWhile isPySpace := by
        rw [← List.takeWhile_append_dropWhile (p := isPySpace)
              (l := s.data)] at hc
        rcases List.mem_append.mp hc with h1 | h2
        · exact absurd h1 htw
        · exact h2
      exact h c (List.mem_reverse.mpr hdw)
  · intro h c hc
    refine h c ?_
    exact (List.dropWhile_sublist isPySpace).subset (List.mem_reverse.mp hc)

lemma removeCommas_idem (s : String) :
    removeCommas (removeCommas s) = removeCommas s := by
  unfold removeCommas
  congr 1
  show (s.data.filter (fun c => c != ',')).filter (fun c => c != ',')
      = s.data.filter (fun c => c != ',')
  rw [List.filter_eq_self]
  intro a ha
  exact (List.mem_filter.mp ha).2

lemma blank_removeCommas (s : String) (h : pyStrip s = "") :
    pyStrip (removeCommas s) = "" := by
  rw [pyStrip_eq_empty_iff] at h ⊢
  intro c hc
  refine h c ?_
  exact List.mem_of_mem_filter hc

lemma pyParseDecimal_empty : pyParseDecimal "" = none := by decide

/-- C9: `to_numeric` removes every comma, wherever it occurs, before
parsing: coercing `s` and coercing comma-free `s` agree on every string
input; in particular `"1,2"`, whose comma is not valid thousands-separator
grouping, parses to the decimal 12 rather than the absent marker. -/
theorem claim_C9 :
    (∀ s, to_numeric (.s s) = to_numeric (.s (removeCommas s))) ∧
    to_numeric (.s "1,2") = some ⟨12, 0⟩ ∧
    decValue ⟨12, 0⟩ = 12 := by
  refine ⟨?_, by decide, by norm_num [decValue]⟩
  intro s
  show (if pyStrip s = "" then none
        else pyParseDecimal (pyStrip (removeCommas s)))
      = (if pyStrip (removeCommas s) = "" then none
         else pyParseDecimal (pyStrip (removeCommas (removeCommas s))))
  by_cases h1 : pyStrip s = ""
  · rw [if_pos h1, if_pos (blank_removeCommas s h1)]
  · rw [if_neg h1, removeCommas_idem]
    by_cases h2 : pyStrip (removeCommas s) = ""
    · rw [if_pos h2, h2, pyParseDecimal_empty]
    · rw [if_neg h2]

/-- C1: each of the four coercers is a total function — the `try/except`
wrapper never lets an exception escape — and whenever the underlying parse
fails (`int` raising `ValueError`, `Decimal` raising `InvalidOperation`,
or the coerced date parse yielding `NaT`), `to_int`, `to_numeric` and
`to_date` return the absent marker `none` instead of propagating an error;
they also return `none` on the NaN marker, where `to_text` (whose `String`
return type cannot encode the marker) returns the empty string. -/
theorem claim_C1 (s : String) :
    (pyParseInt (pyStrip s) = none → to_int (.s s) = none) ∧
    (pyParseDecimal (pyStrip (removeCommas s)) = none →
        to_numeric (.s s) = none) ∧
    (pdToDatetime s = none → to_date (.s s) = none) ∧
    to_int PyVal.na = none ∧ to_numeric PyVal.na = none ∧
    to_date PyVal.na = none ∧ to_text PyVal.na = "" := by
  refine ⟨?_, ?_, ?_, rfl, rfl, rfl, rfl⟩
  · intro h
    show (if pyStrip s = "" then none else pyParseInt (pyStrip s)) = none
    by_cases hb : pyStrip s = ""
    · rw [if_pos hb]
    · rw [if_neg hb]; exact h
  · intro h
    show (if pyStrip s = "" then none
          else pyParseDecimal (pyStrip (removeCommas s))) = none
    by_cases hb : pyStrip s = ""
    · rw [if_pos hb]
    · rw [if_neg hb]; exact h
  · intro h
    show (if pyStrip s = "" then none else pdToDatetime s) = none
    by_cases hb : pyStrip s = ""
    · rw [if_pos hb]
    · rw [if_neg hb]; exact h

/-- Concrete instance of C1: on `"abc"` all three underlying parses fail
and all three fallible coercers return the absent marker. -/
theorem claim_C1_witness :
    to_int (.s "abc") = none ∧ to_numeric (.s "abc") = none ∧
    to_date (.s "abc") = none := by
  obtain ⟨h1, h2, h3, _⟩ := claim_C1 "abc"
  exact ⟨h1 (by decide), h2 (by decide), h3 (by decide)⟩

/-- C7: when the input trims to a non-empty integer-parseable string,
`to_int` returns exactly the integer that string denotes; on every other
input — blank, NaN, or text `int` rejects such as `"12.5"` or `"abc"` —
it returns the absent marker, never raising. -/
theorem claim_C7 :
    (∀ s n, pyParseInt (pyStrip s) = some n → to_int (.s s) = some n) ∧
    (∀ s, pyParseInt (pyStrip s) = none → to_int (.s s) = none) ∧
    to_int (.s "  42 ") = some 42 ∧
    to_int (.s "-7") = some (-7) ∧
    to_int (.s "+0") = some 0 ∧
    to_int (.s "12.5") = none ∧
    to_int (.s "abc") = none ∧
    to_int PyVal.na = none := by
  refine ⟨?_, ?_, by decide, by decide, by decide, by decide, by decide, rfl⟩
  · intro s n h
    show (if pyStrip s = "" then none else pyParseInt (pyStrip s)) = some n
    by_cases hb : pyStrip s = ""
    · rw [hb] at h
      have h0 : pyParseInt "" = none := by decide
      rw [h0] at h
      exact Option.noConfusion h
    · rw [if_neg hb]; exact h
  · intro s h
    show (if pyStrip s = "" then none else pyParseInt (pyStrip s)) = none
    by_cases hb : pyStrip s = ""
    · rw [if_pos hb]
    · rw [if_neg hb]; exact h

/-- Concrete instance of C7: `" 42"` trims to the integer-parseable `"42"`
and round-trips to the exact integer 42. -/
theorem claim_C7_witness : to_int (.s " 42") = some 42 :=
  claim_C7.1 " 42" 42 (by decide)

/-- C8: on blank or whitespace-only input (and on the NaN marker) `to_int`,
`to_numeric` and `to_date` return the absent marker while `to_text` returns
the empty string; on any string input `to_text` returns the trimmed string
form — its `String` return type can never encode the absent marker. -/
theorem claim_C8 :
    (∀ s, pyStrip s = "" →
        to_int (.s s) = none ∧ to_numeric (.s s) = none ∧
        to_date (.s s) = none ∧ to_text (.s s) = "") ∧
    (∀ s, to_text (.s s) = pyStrip s) ∧
    to_int PyVal.na = none ∧ to_numeric PyVal.na = none ∧
    to_date PyVal.na = none ∧ to_text PyVal.na = "" := by
  refine ⟨?_, fun s => rfl, rfl, rfl, rfl, rfl⟩
  intro s h
  refine ⟨?_, ?_, ?_, h⟩
  · show (if pyStrip s = "" then none else pyParseInt (pyStrip s)) = none
    rw [if_pos h]
  · show (if pyStrip s = "" then none
          else pyParseDecimal (pyStrip (removeCommas s))) = none
    rw [if_pos h]
  · show (if pyStrip s = "" then none else pdToDatetime s) = none
    rw [if_pos h]

/-- Concrete instance of C8 at the whitespace-only input `"  "`. -/
theorem claim_C8_witness :
    to_int (.s "  ") = none ∧ to_numeric (.s "  ") = none ∧
    to_date (.s "  ") = none ∧ to_text (.s "  ") = "" :=
  claim_C8.1 "  " (by decide)

/-- C4: `to_numeric` strips commas and surrounding whitespace from the
input and parses the remainder as an exact decimal — a `PyDecimal`
mantissa/scale pair with exact rational value, no binary floating point —
returning the absent marker on blank or unparseable input; `"1,234.50"`
parses to the exact decimal 1234.50 = 2469/2 (mantissa 123450, scale 2)
and `"abc"` is absent. -/
theorem claim_C4 :
    (∀ s, to_numeric (.s s) =
        if pyStrip s = "" then none
        else pyParseDecimal (pyStrip (removeCommas s))) ∧
    to_numeric (.s "1,234.50") = some ⟨123450, 2⟩ ∧
    decValue ⟨123450, 2⟩ = 1234.50 ∧
    decValue ⟨123450, 2⟩ = (2469 : ℚ) / 2 ∧
    to_numeric (.s "abc") = none ∧
    to_numeric PyVal.na = none :=
  ⟨fun _ => rfl, by decide, by norm_num [decValue], by norm_num [decValue],
   by decide, rfl⟩

lemma str_data_append (a b : String) : (a ++ b).data = a.data ++ b.data := rfl

lemma joinCols_mem {c : String} : ∀ {l : List String}, c ∈ l →
    ∃ pre post, (joinCols l).data = pre ++ c.data ++ post := by
  intro l h
  induction l with
  | nil => simp at h
  | cons a t ih =>
      cases t with
      | nil =>
          have hc : c = a := by simpa using h
          subst hc
          exact ⟨[], [], by simp [joinCols]⟩
      | cons b t2 =>
          rcases List.mem_cons.mp h with rfl | h2
          · refine ⟨[], (", ").data ++ (joinCols (b :: t2)).data, ?_⟩
            show ((c ++ ", " ++ joinCols (b :: t2))).data = _
            rw [str_data_append, str_data_append]
            simp
          · obtain ⟨pre, post, hp⟩ := ih h2
            refine ⟨a.data ++ (", ").data ++ pre, post, ?_⟩
            show ((a ++ ", " ++ joinCols (b :: t2))).data = _
            rw [str_data_append, str_data_append, hp]
            simp
lemma containsStr_colsMsg {c : String} {l : List String} (h : c ∈ l) :
    containsStr (colsMsg l) c := by
  obtain ⟨pre, post, hp⟩ := joinCols_mem h
  refine ⟨("[").data ++ pre, post ++ ("]").data, ?_⟩
  show (("[" ++ joinCols l ++ "]")).data = _
  rw [str_data_append, str_data_append, hp]
  simp

lemma containsStr_appendL (a : String) {b c : String} (h : containsStr b c) :
    containsStr (a ++ b) c := by
  obtain ⟨l, r, hp⟩ := h
  exact ⟨a.data ++ l, r, by rw [str_data_append, hp]; simp⟩

/-- C5: each table loader checks the header up front: when required fields
are missing it fails with the error whose message names the table and every
missing field, and — the `.error` carrying no `LoadTrace` — no row is
mapped, no batch is formed and no insert or commit happens; when no
required field is missing, no such error is raised. -/
theorem claim_C5 (bs : Nat) (d1 d2 d3 e1 e2 e3 : DataFrame) :
    (requiredMissing gdpr_text_required d1.columns ≠ [] →
      ∃ msg, load_gdpr_text bs d1 = .error msg ∧
        containsStr msg "gdpr_text" ∧
        ∀ c ∈ requiredMissing gdpr_text_required d1.columns,
          containsStr msg c) ∧
    (requiredMissing gdpr_violations_required d2.columns ≠ [] →
      ∃ msg, load_gdpr_violations_derived bs d2 = .error msg ∧
        containsStr msg "gdpr_violations_derived" ∧
        ∀ c ∈ requiredMissing gdpr_violations_required d2.columns,
          containsStr msg c) ∧
    (requiredMissing gdpr_dataset_required d3.columns ≠ [] →
      ∃ msg, load_gdpr_dataset bs d3 = .error msg ∧
        containsStr msg "GDPR_dataset" ∧
        ∀ c ∈ requiredMissing gdpr_dataset_required d3.columns,
          containsStr msg c) ∧
    (requiredMissing gdpr_text_required e1.columns = [] →
      ∃ t, load_gdpr_text bs e1 = .ok t) ∧
    (requiredMissing gdpr_violations_required e2.columns = [] →
      ∃ t, load_gdpr_violations_derived bs e2 = .ok t) ∧
    (requiredMissing gdpr_dataset_required e3.columns = [] →
      ∃ t, load_gdpr_dataset bs e3 = .ok t) := by
  refine ⟨?_, ?_, ?_, ?_, ?_, ?_⟩
  · intro h
    refine ⟨"gdpr_text: missing columns in CSV: "
        ++ colsMsg (requiredMissing gdpr_text_required d1.columns), ?_, ?_, ?_⟩
    · unfold load_gdpr_text
      rw [if_neg h]
    · refine ⟨[], (": missing columns in CSV: ").data
          ++ (colsMsg (requiredMissing gdpr_text_required d1.columns)).data,
          ?_⟩
      rw [str_data_append]
      have hsplit : ("gdpr_text: missing columns in CSV: ").data
          = ("gdpr_text").data ++ (": missing columns in CSV: ").data := by
        decide
      rw [hsplit]
      simp
    · intro c hc
      exact containsStr_appendL _ (containsStr_colsMsg hc)
  · intro h
    refine ⟨"gdpr_violations_derived: missing columns in CSV: "
        ++ colsMsg (requiredMissing gdpr_violations_required d2.columns), ?_, ?_, ?_⟩
    · unfold load_gdpr_violations_derived
      rw [if_neg h]
    · refine ⟨[], (": missing columns in CSV: ").data
          ++ (colsMsg (requiredMissing gdpr_violations_required
                d2.columns)).data, ?_⟩
      rw [str_data_append]
      have hsplit : ("gdpr_violations_derived: missing columns in CSV: ").data
          = ("gdpr_violations_derived").data
            ++ (": missing columns in CSV: ").data := by
        decide
      rw [hsplit]
      simp
    · intro c hc
      exact containsStr_appendL _ (containsStr_colsMsg hc)
  · intro h
    refine ⟨"GDPR_dataset: missing columns in CSV: "
        ++ colsMsg (requiredMissing gdpr_dataset_required d3.columns), ?_, ?_, ?_⟩
    · unfold load_gdpr_dataset
      rw [if_neg h]
    · refine ⟨[], (": missing columns in CSV: ").data
          ++ (colsMsg (requiredMissing gdpr_dataset_required
                d3.columns)).data, ?_⟩
      rw [str_data_append]
      have hsplit : ("GDPR_dataset: missing columns in CSV: ").data
          = ("GDPR_dataset").data ++ (": missing columns in CSV: ").data := by
        decide
      rw [hsplit]
      simp
    · intro c hc
      exact containsStr_appendL _ (containsStr_colsMsg hc)
  · intro h
    exact ⟨_, by unfold load_gdpr_text; rw [if_pos h]⟩
  · intro h
    exact ⟨_, by unfold load_gdpr_violations_derived; rw [if_pos h]⟩
  · intro h
    exact ⟨_, by unfold load_gdpr_dataset; rw [if_pos h]⟩

/-- A complete one-record `gdpr_text.csv` dataframe. -/
def tdfRow : String → PyVal := fun c =>
  if c = "chapter" then PyVal.s "1"
  else if c = "article" then PyVal.s "2"
  else PyVal.s "text"

/-- A complete `gdpr_text.csv` dataframe with one record. -/
def tdf : DataFrame := ⟨gdpr_text_required, [tdfRow]⟩

/-- A violations record whose `date` field is not a date. -/
def vrowA : String → PyVal := fun c =>
  if c = "date" then PyVal.s "not-a-date"
  else if c = "id" then PyVal.s "1"
  else if c = "price" then PyVal.s "1,000.50"
  else PyVal.s "x"

/-- A violations record whose `date` field is a valid date. -/
def vrowB : String → PyVal := fun c =>
  if c = "date" then PyVal.s "2020-01-15"
  else if c = "id" then PyVal.s "2"
  else if c = "price" then PyVal.s "250"
  else PyVal.s "y"

/-- A complete violations dataframe: one bad-date record, one good one. -/
def vdf : DataFrame := ⟨gdpr_violations_required, [vrowA, vrowB]⟩

/-- A complete one-record `GDPRdataset.csv` dataframe. -/
def ddfRow : String → PyVal := fun c =>
  if c = "Article Number" then PyVal.s "5" else PyVal.s "q"

/-- A complete `GDPRdataset.csv` dataframe with one record. -/
def ddf : DataFrame := ⟨gdpr_dataset_required, [ddfRow]⟩

/-- A dataframe with no columns at all: every required field is missing. -/
def noColsDf : DataFrame := ⟨[], []⟩

/-- The violations CSV header with the `controller` column removed. -/
def dfNoController : DataFrame :=
  ⟨["id", "picture", "name", "price", "authority", "date",
    "article_violated", "type", "source", "summary", "Article_no_der",
    "Sub_article_no_der"], []⟩

/-- Concrete instance of C5, including the spec's example: a File B header
without `controller` makes the violations loader fail with a message naming
the table and the missing column before anything is mapped or inserted; a
header missing everything does the same for the other two loaders; the
complete dataframes load without a schema error. -/
theorem claim_C5_witness :
    (∃ msg, load_gdpr_text 5000 noColsDf = .error msg ∧
        containsStr msg "gdpr_text" ∧
        ∀ c ∈ requiredMissing gdpr_text_required noColsDf.columns,
          containsStr msg c) ∧
    (∃ msg, load_gdpr_violations_derived 5000 dfNoController = .error msg ∧
        containsStr msg "gdpr_violations_derived" ∧
        ∀ c ∈ requiredMissing gdpr_violations_required
            dfNoController.columns, containsStr msg c) ∧
    (∃ msg, load_gdpr_dataset 5000 noColsDf = .error msg ∧
        containsStr msg "GDPR_dataset" ∧
        ∀ c ∈ requiredMissing gdpr_dataset_required noColsDf.columns,
          containsStr msg c) ∧
    (∃ t, load_gdpr_text 5000 tdf = .ok t) ∧
    (∃ t, load_gdpr_violations_derived 5000 vdf = .ok t) ∧
    (∃ t, load_gdpr_dataset 5000 ddf = .ok t) := by
  obtain ⟨h1, h2, h3, h4, h5, h6⟩ :=
    claim_C5 5000 noColsDf dfNoController noColsDf tdf vdf ddf
  exact ⟨h1 (by decide), h2 (by decide), h3 (by decide),
         h4 (by decide), h5 (by decide), h6 (by decide)⟩

/-- C2: with all required header fields present, the row-mapping step of
each of the three table loaders produces exactly one tuple per source
record, in file order, each
tuple being the image of its own record alone under the per-table row
mapper (whose component order mirrors the destination column list of the
insert statement); since the tuple at index i depends only on the record at
index i, a coercion failure in one record yields the absent marker in that
tuple's position and leaves every other tuple unchanged. -/
theorem claim_C2 (bs : Nat) (df dg dh : DataFrame)
    (ht : requiredMissing gdpr_text_required df.columns = [])
    (hv : requiredMissing gdpr_violations_required dg.columns = [])
    (hd : requiredMissing gdpr_dataset_required dh.columns = []) :
    (∃ t, load_gdpr_text bs df = .ok t ∧
        t.rowTuples.length = df.rows.length ∧
        ∀ i : Nat, t.rowTuples[i]? = (df.rows[i]?).map gdpr_text_row) ∧
    (∃ t, load_gdpr_violations_derived bs dg = .ok t ∧
        t.rowTuples.length = dg.rows.length ∧
        ∀ i : Nat, t.rowTuples[i]? = (dg.rows[i]?).map gdpr_viol_row) ∧
    (∃ t, load_gdpr_dataset bs dh = .ok t ∧
        t.rowTuples.length = dh.rows.length ∧
        ∀ i : Nat, t.rowTuples[i]? = (dh.rows[i]?).map gdpr_dataset_row) := by
  refine ⟨?_, ?_, ?_⟩
  · refine ⟨⟨df.rows.map gdpr_text_row,
        chunk_iter (df.rows.map gdpr_text_row) bs, true⟩, ?_, ?_, ?_⟩
    · unfold load_gdpr_text
      rw [if_pos ht]
    · exact List.length_map _ _
    · intro i
      exact List.getElem?_map _ _ _
  · refine ⟨⟨dg.rows.map gdpr_viol_row,
        chunk_iter (dg.rows.map gdpr_viol_row) bs, true⟩, ?_, ?_, ?_⟩
    · unfold load_gdpr_violations_derived
      rw [if_pos hv]
    · exact List.length_map _ _
    · intro i
      exact List.getElem?_map _ _ _
  · refine ⟨⟨dh.rows.map gdpr_dataset_row,
        chunk_iter (dh.rows.map gdpr_dataset_row) bs, true⟩, ?_, ?_, ?_⟩
    · unfold load_gdpr_dataset
      rw [if_pos hd]
    · exact List.length_map _ _
    · intro i
      exact List.getElem?_map _ _ _

/-- Concrete instance of C2, including the spec's example: in `vdf` the
first record's `date` field is `"not-a-date"` and the second's is a valid
date; the loader yields one tuple per record in order, with the absent
marker coming from the bad date field and the parsed date from the good
one, the sibling row unaffected. -/
theorem claim_C2_witness :
    ((∃ t, load_gdpr_text 5000 tdf = .ok t ∧
        t.rowTuples.length = tdf.rows.length ∧
        ∀ i : Nat, t.rowTuples[i]? = (tdf.rows[i]?).map gdpr_text_row) ∧
     (∃ t, load_gdpr_violations_derived 5000 vdf = .ok t ∧
        t.rowTuples.length = vdf.rows.length ∧
        ∀ i : Nat, t.rowTuples[i]? = (vdf.rows[i]?).map gdpr_viol_row) ∧
     (∃ t, load_gdpr_dataset 5000 ddf = .ok t ∧
        t.rowTuples.length = ddf.rows.length ∧
        ∀ i : Nat, t.rowTuples[i]? = (ddf.rows[i]?).map gdpr_dataset_row)) ∧
    to_date (vrowA "date") = none ∧
    to_date (vrowB "date") = some ⟨2020, 1, 15⟩ :=
  ⟨claim_C2 5000 tdf vdf ddf (by decide) (by decide) (by decide),
   by decide, by decide⟩

/-- Headers-only `gdpr_text.csv` dataframe: all columns, zero records. -/
def tdfEmpty : DataFrame := ⟨gdpr_text_required, []⟩

/-- Headers-only violations dataframe: all columns, zero records. -/
def vdfEmpty : DataFrame := ⟨gdpr_violations_required, []⟩

/-- Headers-only `GDPRdataset.csv` dataframe: all columns, zero records. -/
def ddfEmpty : DataFrame := ⟨gdpr_dataset_required, []⟩

/-- C10: with all required header fields present and zero data rows, every
loader maps zero tuples and issues zero insert statements — the batcher
yields no chunks on the empty sequence — and still commits and completes
without error. -/
theorem claim_C10 (bs : Nat) (d1 d2 d3 : DataFrame)
    (h1 : requiredMissing gdpr_text_required d1.columns = [])
    (h2 : requiredMissing gdpr_violations_required d2.columns = [])
    (h3 : requiredMissing gdpr_dataset_required d3.columns = [])
    (r1 : d1.rows = []) (r2 : d2.rows = []) (r3 : d3.rows = []) :
    load_gdpr_text bs d1 = .ok ⟨[], [], true⟩ ∧
    load_gdpr_violations_derived bs d2 = .ok ⟨[], [], true⟩ ∧
    load_gdpr_dataset bs d3 = .ok ⟨[], [], true⟩ ∧
    chunk_iter ([] : List GdprTextRow) bs = [] ∧
    chunk_iter ([] : List GdprViolRow) bs = [] ∧
    chunk_iter ([] : List GdprDatasetRow) bs = [] := by
  refine ⟨?_, ?_, ?_, chunk_iter_nil bs, chunk_iter_nil bs,
      chunk_iter_nil bs⟩
  · unfold load_gdpr_text
    rw [if_pos h1, r1]
    simp [chunk_iter_nil]
  · unfold load_gdpr_violations_derived
    rw [if_pos h2, r2]
    simp [chunk_iter_nil]
  · unfold load_gdpr_dataset
    rw [if_pos h3, r3]
    simp [chunk_iter_nil]

/-- Concrete instance of C10: the three headers-only dataframes load to an
empty tuple list, an empty batch list and a commit, with no error. -/
theorem claim_C10_witness :
    load_gdpr_text 5000 tdfEmpty = .ok ⟨[], [], true⟩ ∧
    load_gdpr_violations_derived 5000 vdfEmpty = .ok ⟨[], [], true⟩ ∧
    load_gdpr_dataset 5000 ddfEmpty = .ok ⟨[], [], true⟩ ∧
    chunk_iter ([] : List GdprTextRow) 5000 = [] ∧
    chunk_iter ([] : List GdprViolRow) 5000 = [] ∧
    chunk_iter ([] : List GdprDatasetRow) 5000 = [] :=
  claim_C10 5000 tdfEmpty vdfEmpty ddfEmpty (by decide) (by decide)
    (by decide) rfl rfl rfl

lemma main_run_missing (env : RunEnv)
    (hb : env.csvPaths.all env.pathExists = false) :
    main_run env = ⟨1, false, false, false, none⟩ := by
  unfold main_run
  rw [hb]
  rfl

lemma main_run_connFail (env : RunEnv)
    (hb : env.csvPaths.all env.pathExists = true) (e : String)
    (hc : env.connectResult = .error e) :
    main_run env = ⟨0, false, false, false, some e⟩ := by
  unfold main_run
  rw [hb, hc]
  rfl

lemma main_run_loadFail (env : RunEnv)
    (hb : env.csvPaths.all env.pathExists = true)
    (hc : env.connectResult = .ok ()) (e : String)
    (hl : env.loadResult = .error e) :
    main_run env = ⟨0, true, true, true, some e⟩ := by
  unfold main_run
  rw [hb, hc, hl]
  rfl

lemma main_run_allOk (env : RunEnv)
    (hb : env.csvPaths.all env.pathExists = true)
    (hc : env.connectResult = .ok ()) (hl : env.loadResult = .ok ()) :
    main_run env = ⟨0, true, false, true, none⟩ := by
  unfold main_run
  rw [hb, hc, hl]
  rfl

/-- C6 (corrected): the process exits non-zero exactly when some configured
source path does not exist, and in that case no connection is ever opened;
every exception from the `try` block — connect failure, schema mismatch or
statement failure — is caught at top level, logged, and the process still
exits with status zero; but `conn.rollback()` runs only when the connection
itself had been opened: a failure of the connect call is caught and logged
with NO rollback, since `conn` is still `None`. -/
theorem claim_C6 (env : RunEnv) :
    ((main_run env).exitCode ≠ 0 ↔
        env.csvPaths.all env.pathExists = false) ∧
    (env.csvPaths.all env.pathExists = false →
        main_run env = ⟨1, false, false, false, none⟩) ∧
    (∀ e, env.csvPaths.all env.pathExists = true →
        env.connectResult = .error e →
        main_run env = ⟨0, false, false, false, some e⟩) ∧
    (∀ e, env.csvPaths.all env.pathExists = true →
        env.connectResult = .ok () → env.loadResult = .error e →
        main_run env = ⟨0, true, true, true, some e⟩) ∧
    (env.csvPaths.all env.pathExists = true →
        env.connectResult = .ok () → env.loadResult = .ok () →
        main_run env = ⟨0, true, false, true, none⟩) := by
  refine ⟨?_, main_run_missing env, fun e hb hc => main_run_connFail env hb e hc,
      fun e hb hc hl => main_run_loadFail env hb hc e hl,
      main_run_allOk env⟩
  cases hb : env.csvPaths.all env.pathExists with
  | false =>
      rw [main_run_missing env hb]
      simp
  | true =>
      cases hc : env.connectResult with
      | error e =>
          rw [main_run_connFail env hb e hc]
          simp
      | ok u =>
          cases u
          cases hl : env.loadResult with
          | error e =>
              rw [main_run_loadFail env hb hc e hl]
              simp
          | ok w =>
              cases w
              rw [main_run_allOk env hb hc hl]
              simp

/-- An environment where all load steps fail at the schema check (the only
exception raised inside the `try` block comes from a loader). -/
def envLoadFail : RunEnv :=
  ⟨fun _ => true, ["gdpr_text.csv", "violations.csv", "dataset.csv"],
   .ok (), .error "schema mismatch"⟩

/-- Concrete instance of C6 (corrected): with every file present and a
loader raising, the run logs the error, rolls back, closes the connection
and exits 0. -/
theorem claim_C6_witness :
    main_run envLoadFail = ⟨0, true, true, true, some "schema mismatch"⟩ :=
  (claim_C6 envLoadFail).2.2.2.1 "schema mismatch" rfl rfl rfl

/-- Claim C6 exactly as stated: every exception raised during loading —
the claim's own list includes connection failure — is caught at the top
level, logged, AND followed by a rollback, with the process exiting 0. -/
def claimC6Literal : Prop :=
  ∀ env : RunEnv, env.csvPaths.all env.pathExists = true →
    ∀ e, (env.connectResult = .error e ∨ env.loadResult = .error e) →
      (main_run env).exitCode = 0 ∧ (main_run env).loggedError = some e ∧
      (main_run env).rolledBack = true

/-- An environment where all source files exist but the `psycopg2.connect`
call itself raises. -/
def envConnFail : RunEnv :=
  ⟨fun _ => true, ["gdpr_text.csv", "violations.csv", "dataset.csv"],
   .error "connection refused", .ok ()⟩

/-- C6 counterexample: when the connection attempt itself fails, `conn` is
still `None` in the `except` block, so `if conn: conn.rollback()` performs
no rollback — the exception is caught and logged and the exit status is 0,
but the claimed "followed by a rollback" is false at this input. -/
theorem claim_C6_counterexample : ¬ claimC6Literal := by
  intro h
  have h2 := h envConnFail rfl "connection refused" (Or.inl rfl)
  have h3 : (main_run envConnFail).rolledBack = true := h2.2.2
  have h4 : (main_run envConnFail).rolledBack = false := rfl
  rw [h4] at h3
  exact Bool.noConfusion h3
